import Mathlib

/-!
Verification of the jbod-rs topology-discovery engine.

The Rust sources (`src/jbod/disks.rs`, `src/jbod/enclosure.rs`,
`src/utils/helper.rs`) are shallowly embedded: every parsing function is
translated into an executable Lean function over `String`, with the string
operations of the Rust standard library (`split`, `split_whitespace`,
`trim`, `replace`, substring `contains`) re-implemented structurally over
`List Char` so that concrete runs reduce in the kernel.  A Rust operation
that can panic (out-of-bounds indexing, `unwrap` on `None`) is embedded as
an `Option`-valued function where `none` models the panic.  External
processes and the filesystem are parameters: a function reading a file
takes a `String → Option String` accessor, a function spawning a tool takes
the tool's raw output (or a map from arguments to outputs).
-/

namespace JbodRs

/-! ### String primitives mirroring the Rust standard library -/

/-- Is `p` a prefix of the second list?  Mirrors `str::starts_with`. -/
def isPrefixL : List Char → List Char → Bool
  | [], _ => true
  | _ :: _, [] => false
  | p :: ps, c :: cs => p = c && isPrefixL ps cs

/-- Does the haystack contain the pattern as a contiguous substring?
Mirrors `str::contains(&str)`. -/
def containsL : List Char → List Char → Bool
  | [], pat => pat.isEmpty
  | hay@(_ :: t), pat => isPrefixL pat hay || containsL t pat

/-- Mirrors Rust `s.contains(pat)`. -/
def containsSubstr (s pat : String) : Bool :=
  containsL s.toList pat.toList

/-- Split a character list at every character satisfying `p`, keeping empty
segments, as Rust `str::split` does. -/
def splitPredL (p : Char → Bool) : List Char → List (List Char)
  | [] => [[]]
  | c :: cs =>
    let rest := splitPredL p cs
    if p c then [] :: rest
    else
      match rest with
      | [] => [[c]]
      | r :: rs => (c :: r) :: rs

/-- Rust `s.split(sep)` for a single-character separator: empty segments are
kept, and the empty string yields one empty segment. -/
def splitChar (sep : Char) (s : String) : List String :=
  (splitPredL (fun c => c = sep) s.toList).map String.mk

/-- Rust `s.split_whitespace()`: split at whitespace and drop the empty
segments, so the result holds only the non-empty tokens. -/
def splitWhitespace (s : String) : List String :=
  ((splitPredL Char.isWhitespace s.toList).map String.mk).filter (fun t => t ≠ "")

/-- Strip leading and trailing whitespace characters. -/
def trimL (cs : List Char) : List Char :=
  ((cs.dropWhile Char.isWhitespace).reverse.dropWhile Char.isWhitespace).reverse

/-- Rust `str::trim`. -/
def trim (s : String) : String :=
  String.mk (trimL s.toList)

/-- Replace every non-overlapping occurrence of `pat` (non-empty in all
uses below) by `repl`, scanning left to right; the fuel argument is an
upper bound on the number of scanning steps, always instantiated with the
haystack's length. -/
def replaceFuelL (pat repl : List Char) : Nat → List Char → List Char
  | _, [] => []
  | 0, s => s
  | fuel + 1, c :: rest =>
    if isPrefixL pat (c :: rest) && !pat.isEmpty then
      repl ++ replaceFuelL pat repl fuel ((c :: rest).drop pat.length)
    else
      c :: replaceFuelL pat repl fuel rest

/-- Rust `s.replace(pat, repl)` (replace all occurrences). -/
def replaceStr (s pat repl : String) : String :=
  String.mk (replaceFuelL pat.toList repl.toList s.toList.length s.toList)

/-! ### `Util` (src/utils/helper.rs)

The filesystem is abstracted by two parameters used throughout:
`readDir : String → Option (List String)` models `fs::read_dir` (`none` is
an `io::Error`, e.g. the directory is absent), and
`pathExists : String → Bool` models `Util::path_exists`. -/

/-- Embeds `Util::is_folder_empty`: `Ok(read_dir(path)?.take(1).count() == 0)`.
`none` models the propagated `io::Error` when the directory is unreadable. -/
def is_folder_empty (readDir : String → Option (List String)) (path : String) :
    Option Bool :=
  (readDir path).map (fun entries => entries.take 1 = [])

/-- Embeds `Util::verify_sysclass_folder`: returns `true` when the function prints
the alternative-tooling advice and calls `exit(1)`; `false` when it falls
through.  The Rust guard is `is_folder_empty(path).unwrap_or(false)`. -/
def verify_sysclass_folder (readDir : String → Option (List String))
    (path : String) : Bool :=
  (is_folder_empty readDir path).getD false

/-! ### `DiskShelf::get_disk_sd_map` (src/jbod/disks.rs lines 200-222)

Each line of `sg_map`'s output is split on whitespace; with two or more
tokens the pair (first, second) is inserted into the map, with exactly one
token the pair (first, "NONE") is inserted, and with zero tokens the
indexing `output_split[0]` panics (`none`).  The `HashMap` is modelled as
an association list where later inserts are prepended, so `List.lookup`
(first match) realises last-insert-wins. -/

/-- The map entry contributed by one `sg_map` output line, when the line
has at least one token. -/
def sgMapEntry (line : String) : Option (String × String) :=
  match splitWhitespace line with
  | [] => none
  | [g] => some (g, "NONE")
  | g :: b :: _ => some (g, b)

/-- The loop body of `get_disk_sd_map` over the remaining lines. -/
def get_disk_sd_map_go (disks : List (String × String)) :
    List String → Option (List (String × String))
  | [] => some disks
  | line :: rest =>
    match splitWhitespace line with
    | [] => none
    | [g] => get_disk_sd_map_go ((g, "NONE") :: disks) rest
    | g :: b :: _ => get_disk_sd_map_go ((g, b) :: disks) rest

/-- Embeds `DiskShelf::get_disk_sd_map`, taking the lines of `sg_map`'s stdout. -/
def get_disk_sd_map (lines : List String) : Option (List (String × String)) :=
  get_disk_sd_map_go [] lines

theorem get_disk_sd_map_go_eq (lines : List String) :
    ∀ disks : List (String × String), (∀ l ∈ lines, splitWhitespace l ≠ []) →
      get_disk_sd_map_go disks lines =
        some ((lines.filterMap sgMapEntry).reverse ++ disks) := by
  induction lines with
  | nil => intro disks _; simp [get_disk_sd_map_go]
  | cons line rest ih =>
    intro disks h
    have hline : splitWhitespace line ≠ [] := h line (by simp)
    have hrest : ∀ l ∈ rest, splitWhitespace l ≠ [] := fun l hl => h l (by simp [hl])
    cases hsp : splitWhitespace line with
    | nil => exact absurd hsp hline
    | cons g bs =>
      cases bs with
      | nil =>
        simp [get_disk_sd_map_go, hsp, sgMapEntry, ih _ hrest]
      | cons b bs' =>
        simp [get_disk_sd_map_go, hsp, sgMapEntry, ih _ hrest]

/-! ### `DiskShelf` attribute collectors (src/jbod/disks.rs) -/

/-- Embeds `DiskShelf::get_disk_temperature`, taking the raw stdout of the
`scsi_temperature` tool.  The Rust code splits on newlines and indexes
`output_spl[2]` (line 3), which panics (`none`) when fewer than three lines
exist; otherwise it keeps exactly the decimal-digit characters of that
line. -/
def get_disk_temperature (scsi_temp_output : String) : Option String :=
  let output_spl := splitChar '\n' scsi_temp_output
  (output_spl.get? 2).map (fun l => String.mk (l.toList.filter (fun n => n.isDigit)))

/-- Embeds `s.truncate(s.len() - 1)` as applied in `get_disk_vendor` /
`get_disk_model`: drops the final character.  The sysfs contents involved
are ASCII, so byte truncation and character truncation agree; on the empty
string the Rust subtraction wraps and `truncate` is a no-op, matched by
`dropLast`. -/
def truncLastChar (s : String) : String :=
  String.mk s.toList.dropLast

/-- Embeds `DiskShelf::get_disk_vendor`.  `readFile` models `fs::read`; a read
error yields the `"N/A"` bytes, and the last character of whichever string
resulted is then dropped unconditionally. -/
def get_disk_vendor (readFile : String → Option String) (disk : String) : String :=
  let content :=
    match readFile (disk ++ "/vendor") with
    | some c => c
    | none => "N/A"
  truncLastChar content

/-- Embeds `DiskShelf::get_disk_model`, identical to `get_disk_vendor` but for the
`model` attribute file. -/
def get_disk_model (readFile : String → Option String) (disk : String) : String :=
  let content :=
    match readFile (disk ++ "/model") with
    | some c => c
    | none => "N/A"
  truncLastChar content

/-! ### Claims C1, C10, C7, C4 -/

/-- C1: the sg_map correlation table records, for each output line, the
first whitespace token as the generic path and the second token as the
block path when present, `"NONE"` otherwise; on the two-line output
`"/dev/sg10 /dev/sdz"` / `"/dev/sg11"`, looking up `/dev/sg10` yields
`/dev/sdz` and looking up `/dev/sg11` yields the unmapped sentinel. -/
theorem C1_sd_map_correlation (lines : List String)
    (h : ∀ l ∈ lines, splitWhitespace l ≠ []) :
    get_disk_sd_map lines = some ((lines.filterMap sgMapEntry).reverse) ∧
    (get_disk_sd_map ["/dev/sg10 /dev/sdz", "/dev/sg11"]).bind
        (fun m => m.lookup "/dev/sg10") = some "/dev/sdz" ∧
    (get_disk_sd_map ["/dev/sg10 /dev/sdz", "/dev/sg11"]).bind
        (fun m => m.lookup "/dev/sg11") = some "NONE" := by
  refine ⟨?_, by decide, by decide⟩
  simpa using get_disk_sd_map_go_eq lines [] h

theorem C1_sd_map_correlation_witness :
    get_disk_sd_map ["/dev/sg10 /dev/sdz", "/dev/sg11"] =
      some (((["/dev/sg10 /dev/sdz", "/dev/sg11"] : List String).filterMap
        sgMapEntry).reverse) ∧
    (get_disk_sd_map ["/dev/sg10 /dev/sdz", "/dev/sg11"]).bind
        (fun m => m.lookup "/dev/sg10") = some "/dev/sdz" ∧
    (get_disk_sd_map ["/dev/sg10 /dev/sdz", "/dev/sg11"]).bind
        (fun m => m.lookup "/dev/sg11") = some "NONE" :=
  C1_sd_map_correlation ["/dev/sg10 /dev/sdz", "/dev/sg11"] (by decide)

/-- C10: an empty line in the sg_map output (zero whitespace tokens) makes
the table construction index `output_split[0]` out of bounds: the whole
map build panics (`none`) even though a later line is well-formed, instead
of skipping the empty line. -/
theorem C10_empty_line_aborts_sd_map :
    get_disk_sd_map ["/dev/sg10 /dev/sdz", "", "/dev/sg11"] = none := by decide

/-- C7 counterexample: on an output with fewer than 3 lines (here the empty
output, a single empty line) the temperature extraction indexes line 3 out
of bounds and panics (`none`), refuting "never panics on any input,
including outputs with fewer than 3 lines". -/
theorem C7_short_output_panics :
    get_disk_temperature "" = none := by decide

/-- C7 amended: on any output with at least 3 lines the extraction returns
line 3 with every non-digit character removed — in particular the empty
string when that line has no digits — but an output with fewer than 3
lines panics at the `output_spl[2]` indexing. -/
theorem C7_line3_digit_extraction (out : String)
    (h : 2 < (splitChar '\n' out).length) :
    get_disk_temperature out =
      some (String.mk (((splitChar '\n' out).get ⟨2, h⟩).toList.filter
        (fun n => n.isDigit))) := by
  show ((splitChar '\n' out).get? 2).map _ = _
  rw [List.get?_eq_get h]
  rfl

theorem C7_line3_digit_extraction_witness :
    get_disk_temperature "scanning\ndevice\nDrive Temp: 37 C\n" = some "37" := by
  have h : 2 < (splitChar '\n' "scanning\ndevice\nDrive Temp: 37 C\n").length := by
    decide
  rw [C7_line3_digit_extraction "scanning\ndevice\nDrive Temp: 37 C\n" h]
  rfl

/-- C4: the claim says a missing `vendor` / `model` file yields exactly the
"not available" sentinel (`"N/A"`) and that for a present file only the
trailing newline is stripped.  The code truncates the last character of
whatever string it holds, including the sentinel, so a missing file yields
`"N/"`; this is a slip (the error arm explicitly constructs `"N/A"` as the
intended sentinel).  A present file whose content does not end in a newline
also loses its last real character. -/
theorem C4_sentinel_truncated :
    get_disk_vendor (fun _ => none) "/sys/class/enclosure/15:0:1:0/Slot00/device"
        = "N/" ∧
    get_disk_model (fun _ => none) "/sys/class/enclosure/15:0:1:0/Slot00/device"
        = "N/" ∧
    get_disk_vendor (fun p => if p = "/dev/x/vendor" then some "ACME\n" else none)
        "/dev/x" = "ACME" ∧
    get_disk_vendor (fun p => if p = "/dev/x/vendor" then some "ACME" else none)
        "/dev/x" = "ACM" := by
  refine ⟨by decide, by decide, by decide, by decide⟩

/-! ### `DiskShelf` LED control (src/jbod/disks.rs lines 279-370)

`set_disk_led_locate` / `set_disk_led_fault` are side-effecting; each is
embedded as a function returning the ordered list of its observable
effects.  The freshly rebuilt topology (`jbod_disk_map()`) is a parameter,
and the `LedEffect.rebuildTopology` marker records the point where the Rust
code performs the rebuild. -/

structure Disk where
  enclosure : String
  slot : String
  device_path : String
  device_map : String
  temperature : String
  vendor : String
  model : String
  serial : String
  fw_revision : String
  led_locate_path : String
  led_fault_path : String
deriving DecidableEq

inductive LedEffect where
  | rebuildTopology : LedEffect
  | fsWrite (path value : String) : LedEffect
  | report (msg : String) : LedEffect
  | exitProcess (code : Nat) : LedEffect
deriving DecidableEq

/-- Embeds `DiskShelf::set_disk_led_locate`. -/
def set_disk_led_locate (pathExists : String → Bool) (topology : List Disk)
    (disk : String) (option : String) : List LedEffect :=
  if pathExists disk then
    LedEffect.rebuildTopology ::
      (match topology.filter
          (fun v => v.device_path = disk || v.device_map = disk) with
       | [] => []
       | d :: _ =>
         if pathExists d.led_locate_path then
           LedEffect.fsWrite d.led_locate_path option ::
             (if option = "0" || option = "1" then
               [LedEffect.report ("Disk slot: " ++ d.slot ++ " " ++ option)]
             else
               [LedEffect.report "Option not identified"])
         else
           [LedEffect.report ("Error: " ++ disk ++ " does not expose locate led")])
  else
    [LedEffect.report ("Error: device " ++ disk ++ " not found"),
     LedEffect.exitProcess 1]

/-- Embeds `DiskShelf::set_disk_led_fault`. -/
def set_disk_led_fault (pathExists : String → Bool) (topology : List Disk)
    (disk : String) (option : String) : List LedEffect :=
  if pathExists disk then
    LedEffect.rebuildTopology ::
      (match topology.filter
          (fun v => v.device_path = disk || v.device_map = disk) with
       | [] => []
       | d :: _ =>
         if pathExists d.led_fault_path then
           LedEffect.fsWrite d.led_fault_path option ::
             (if option = "0" || option = "1" then
               [LedEffect.report ("Disk slot: " ++ d.slot ++ " " ++ option)]
             else
               [LedEffect.report "Option not identified"])
         else
           [LedEffect.report ("Error: " ++ disk ++ " does not expose fault led")])
  else
    [LedEffect.report ("Error: device " ++ disk ++ " not found"),
     LedEffect.exitProcess 1]

/-! ### Claims C3, C2, C9 -/

/-- C3 counterexample: when the sysfs enclosure root is absent
(`fs::read_dir` errors, modelled by a `readDir` returning `none` on every
path), `verify_sysclass_folder` does not terminate the process: the error
is swallowed by `unwrap_or(false)` and the check falls through, refuting
"absent or empty → terminates with a non-zero exit status". -/
theorem C3_absent_root_not_fatal :
    verify_sysclass_folder (fun _ => none) "/sys/class/enclosure/" = false := by
  decide

/-- C3 amended: `verify_sysclass_folder` (run by disk discovery before its
traversal) terminates the process exactly when the sysfs enclosure root is
readable and empty; when the root is absent the read error is swallowed
and the process is not terminated. -/
theorem C3_empty_root_exits (readDir : String → Option (List String))
    (path : String) :
    (readDir path = some [] → verify_sysclass_folder readDir path = true) ∧
    (readDir path = none → verify_sysclass_folder readDir path = false) := by
  constructor
  · intro h
    simp [verify_sysclass_folder, is_folder_empty, h]
  · intro h
    simp [verify_sysclass_folder, is_folder_empty, h]

theorem C3_empty_root_exits_witness :
    verify_sysclass_folder (fun _ => some []) "/sys/class/enclosure/" = true ∧
    verify_sysclass_folder (fun _ => none) "/sys/class/enclosure/" = false :=
  ⟨(C3_empty_root_exits (fun _ => some []) "/sys/class/enclosure/").1 rfl,
   (C3_empty_root_exits (fun _ => none) "/sys/class/enclosure/").2 rfl⟩

/-- C2: for the found disk, each indicator is refused independently — when
the resolved locate LED path does not exist as a filesystem path (in
particular the `"NONE"` sentinel set at discovery), the locate setter
performs no filesystem write and reports that the slot does not expose the
indicator, whatever the state of the fault path, and symmetrically for the
fault setter. -/
theorem C2_absent_led_path_refused (pathExists : String → Bool)
    (topology : List Disk) (disk option : String) (d : Disk) (rest : List Disk)
    (hdev : pathExists disk = true)
    (hfound : topology.filter
      (fun v => v.device_path = disk || v.device_map = disk) = d :: rest) :
    (pathExists d.led_locate_path = false →
      set_disk_led_locate pathExists topology disk option =
        [LedEffect.rebuildTopology,
         LedEffect.report ("Error: " ++ disk ++ " does not expose locate led")] ∧
      (∀ p v, LedEffect.fsWrite p v ∉
        set_disk_led_locate pathExists topology disk option)) ∧
    (pathExists d.led_fault_path = false →
      set_disk_led_fault pathExists topology disk option =
        [LedEffect.rebuildTopology,
         LedEffect.report ("Error: " ++ disk ++ " does not expose fault led")] ∧
      (∀ p v, LedEffect.fsWrite p v ∉
        set_disk_led_fault pathExists topology disk option)) := by
  constructor
  · intro hloc
    simp [set_disk_led_locate, hdev, hfound, hloc]
  · intro hfau
    simp [set_disk_led_fault, hdev, hfound, hfau]

theorem C2_absent_led_path_refused_witness :
    (set_disk_led_locate
        (fun p => p = "/dev/sg10" || p = "/sys/class/enclosure/15:0:1:0/Slot00/fault")
        [⟨"15:0:1:0", "Slot00", "/dev/sg10", "/dev/sdz", "37", "V", "M", "S",
          "F", "NONE", "/sys/class/enclosure/15:0:1:0/Slot00/fault"⟩]
        "/dev/sg10" "1" =
      [LedEffect.rebuildTopology,
       LedEffect.report ("Error: " ++ "/dev/sg10" ++ " does not expose locate led")] ∧
     (∀ p v, LedEffect.fsWrite p v ∉
       set_disk_led_locate
        (fun p => p = "/dev/sg10" || p = "/sys/class/enclosure/15:0:1:0/Slot00/fault")
        [⟨"15:0:1:0", "Slot00", "/dev/sg10", "/dev/sdz", "37", "V", "M", "S",
          "F", "NONE", "/sys/class/enclosure/15:0:1:0/Slot00/fault"⟩]
        "/dev/sg10" "1")) ∧
    (set_disk_led_fault
        (fun p => p = "/dev/sg11" || p = "/sys/class/enclosure/15:0:1:0/Slot01/locate")
        [⟨"15:0:1:0", "Slot01", "/dev/sg11", "/dev/sdy", "37", "V", "M", "S",
          "F", "/sys/class/enclosure/15:0:1:0/Slot01/locate", "NONE"⟩]
        "/dev/sg11" "1" =
      [LedEffect.rebuildTopology,
       LedEffect.report ("Error: " ++ "/dev/sg11" ++ " does not expose fault led")] ∧
     (∀ p v, LedEffect.fsWrite p v ∉
       set_disk_led_fault
        (fun p => p = "/dev/sg11" || p = "/sys/class/enclosure/15:0:1:0/Slot01/locate")
        [⟨"15:0:1:0", "Slot01", "/dev/sg11", "/dev/sdy", "37", "V", "M", "S",
          "F", "/sys/class/enclosure/15:0:1:0/Slot01/locate", "NONE"⟩]
        "/dev/sg11" "1")) :=
  ⟨(C2_absent_led_path_refused
      (fun p => p = "/dev/sg10" || p = "/sys/class/enclosure/15:0:1:0/Slot00/fault")
      [⟨"15:0:1:0", "Slot00", "/dev/sg10", "/dev/sdz", "37", "V", "M", "S",
        "F", "NONE", "/sys/class/enclosure/15:0:1:0/Slot00/fault"⟩]
      "/dev/sg10" "1"
      ⟨"15:0:1:0", "Slot00", "/dev/sg10", "/dev/sdz", "37", "V", "M", "S",
        "F", "NONE", "/sys/class/enclosure/15:0:1:0/Slot00/fault"⟩ []
      (by decide) (by decide)).1 (by decide),
   (C2_absent_led_path_refused
      (fun p => p = "/dev/sg11" || p = "/sys/class/enclosure/15:0:1:0/Slot01/locate")
      [⟨"15:0:1:0", "Slot01", "/dev/sg11", "/dev/sdy", "37", "V", "M", "S",
        "F", "/sys/class/enclosure/15:0:1:0/Slot01/locate", "NONE"⟩]
      "/dev/sg11" "1"
      ⟨"15:0:1:0", "Slot01", "/dev/sg11", "/dev/sdy", "37", "V", "M", "S",
        "F", "/sys/class/enclosure/15:0:1:0/Slot01/locate", "NONE"⟩ []
      (by decide) (by decide)).2 (by decide)⟩

/-- C9: when the supplied device identifier does not exist as a filesystem
path, the LED setters report the device as not found and exit with status 1
without rebuilding the topology and without any filesystem write; when the
identifier exists but no disk in the rebuilt topology matches it by
`device_path` or `device_map`, the operation's only effect is the topology
rebuild — no write, no exit. -/
theorem C9_led_resolution (pathExists : String → Bool) (topology : List Disk)
    (disk option : String) :
    (pathExists disk = false →
      set_disk_led_locate pathExists topology disk option =
        [LedEffect.report ("Error: device " ++ disk ++ " not found"),
         LedEffect.exitProcess 1] ∧
      set_disk_led_fault pathExists topology disk option =
        [LedEffect.report ("Error: device " ++ disk ++ " not found"),
         LedEffect.exitProcess 1] ∧
      LedEffect.rebuildTopology ∉
        set_disk_led_locate pathExists topology disk option ∧
      (∀ p v, LedEffect.fsWrite p v ∉
        set_disk_led_locate pathExists topology disk option)) ∧
    (pathExists disk = true →
      topology.filter
        (fun v => v.device_path = disk || v.device_map = disk) = [] →
      set_disk_led_locate pathExists topology disk option =
        [LedEffect.rebuildTopology] ∧
      set_disk_led_fault pathExists topology disk option =
        [LedEffect.rebuildTopology]) := by
  constructor
  · intro h
    simp [set_disk_led_locate, set_disk_led_fault, h]
  · intro h hfilter
    simp [set_disk_led_locate, set_disk_led_fault, h, hfilter]

theorem C9_led_resolution_witness :
    (set_disk_led_locate (fun _ => false) [] "/dev/typo" "1" =
      [LedEffect.report ("Error: device " ++ "/dev/typo" ++ " not found"),
       LedEffect.exitProcess 1]) ∧
    (set_disk_led_locate (fun p => p = "/dev/sg99") [] "/dev/sg99" "1" =
      [LedEffect.rebuildTopology]) :=
  ⟨((C9_led_resolution (fun _ => false) [] "/dev/typo" "1").1 rfl).1,
   ((C9_led_resolution (fun p => p = "/dev/sg99") [] "/dev/sg99" "1").2
     (by decide) rfl).1⟩

/-! ### `BackPlane` (src/jbod/enclosure.rs)

External tools are parameters: `inq` maps an enclosure device path to the
four inquiry fields (`get_enclosure_details` applied to the tool's output),
`coolingLines` maps a device path to the lines of
`sg_ses -j -ff <dev> | grep Cooling`, and `speedOut` maps a device path and
component index to the raw output of `sg_ses --index=<i> <dev>`. -/

structure Enclosure where
  slot : String
  device_path : String
  vendor : String
  model : String
  revision : String
  serial : String
deriving DecidableEq

structure EnclosureFan where
  slot : String
  serial : String
  description : String
  index : String
  speed : Int
  comment : String
deriving DecidableEq

/-- One iteration of the `get_enclosure_details` loop: each line may update
any of the four fields whose label substring it contains. -/
def enclosure_details_line (acc : String × String × String × String)
    (output : String) : String × String × String × String :=
  let vendor := if containsSubstr output "Vendor" then
    trim (replaceStr output "Vendor identification:" "") else acc.1
  let ident := if containsSubstr output "identification" then
    trim (replaceStr output "Product identification:" "") else acc.2.1
  let rev := if containsSubstr output "revision" then
    trim (replaceStr output "Product revision level:" "") else acc.2.2.1
  let serial := if containsSubstr output "serial" then
    trim (replaceStr output "Unit serial number:" "") else acc.2.2.2
  (vendor, ident, rev, serial)

/-- Embeds `BackPlane::get_enclosure_details`, taking the raw stdout of `sg_inq`:
every field defaults to the `"NONE"` sentinel and is overwritten by the
last line carrying its label. -/
def get_enclosure_details (sginq_output : String) :
    String × String × String × String :=
  (splitChar '\n' sginq_output).foldl enclosure_details_line
    ("NONE", "NONE", "NONE", "NONE")

/-- Embeds `str::replace(&['[', ']'][..], "")`: removes every bracket character. -/
def removeBrackets (s : String) : String :=
  String.mk (s.toList.filter (fun c => !(c = '[' || c = ']')))

/-- The loop of `BackPlane::get_enclosure` over the `lsscsi -g` lines.  A
line containing `"enclosu"` is tokenized on single spaces with empty
tokens dropped; `.position(|r| r.contains("/dev/")).unwrap()` panics
(`none`) when no token holds a device path. -/
def get_enclosure_go (inq : String → String × String × String × String)
    (enclosure : List Enclosure) : List String → Option (List Enclosure)
  | [] => some enclosure
  | p_output :: rest =>
    if containsSubstr p_output "enclosu" then
      let s_output := (splitChar ' ' p_output).filter (fun content => content ≠ "")
      match s_output.find? (fun r => containsSubstr r "/dev/") with
      | none => none
      | some dev =>
        let details := inq dev
        get_enclosure_go inq (enclosure ++
          [{ slot := removeBrackets (s_output.headD ""),
             device_path := dev,
             vendor := details.1,
             model := details.2.1,
             revision := details.2.2.1,
             serial := details.2.2.2 }]) rest
    else
      get_enclosure_go inq enclosure rest

/-- Embeds `BackPlane::get_enclosure`, taking the raw stdout of `lsscsi -g`. -/
def get_enclosure (inq : String → String × String × String × String)
    (lsscsi_output : String) : Option (List Enclosure) :=
  get_enclosure_go inq [] (splitChar '\n' lsscsi_output)

/-- Embeds `char::to_digit(10)`. -/
def charToDigit (c : Char) : Option Nat :=
  if c.isDigit then some (c.toNat - 48) else none

/-- The RPM extraction of `get_enclosure_fan_speed`: trim the field, skip
to the first digit, take the run of digits, and fold them into a number;
`none` when the run is empty (the `unwrap` that panics in Rust). -/
def digitRun (s : String) : Option Nat :=
  ((((trim s).toList.dropWhile (fun c => !c.isDigit)).takeWhile
      (fun c => c.isDigit)).foldl
    (fun acc c => (charToDigit c).map (fun b => acc.getD 0 * 10 + b)) none)

/-- The loop of `BackPlane::get_enclosure_fan_speed` over output lines.
`speed` starts at 0 and `comment` empty; every line containing `"speed"`
overwrites them, with `none` modelling the panics of `output_speed[1]`,
`_speed.unwrap()` and `output_speed[2]`. -/
def fan_speed_go (acc : Int × String) : List String → Option (Int × String)
  | [] => some acc
  | output :: rest =>
    if containsSubstr output "speed" then
      let output_speed := splitChar ',' output
      match output_speed.get? 1 with
      | none => none
      | some f1 =>
        match digitRun f1 with
        | none => none
        | some n =>
          match output_speed.get? 2 with
          | none => none
          | some f2 => fan_speed_go ((n : Int), trim f2) rest
    else
      fan_speed_go acc rest

/-- Embeds `BackPlane::get_enclosure_fan_speed`, taking the raw stdout of
`sg_ses --index=<fan_index> <device_path>`. -/
def get_enclosure_fan_speed (sg_ses_output : String) : Option (Int × String) :=
  fan_speed_go ((0 : Int), "") (splitChar '\n' sg_ses_output)

/-- The inner loop of `BackPlane::get_enclosure_fan` over the cooling-
component lines of one enclosure. -/
def fan_lines_go (speedOut : String → String → String) (enclosure : Enclosure)
    (acc : List EnclosureFan) : List String → Option (List EnclosureFan)
  | [] => some acc
  | encf_u :: rest =>
    let encf_split := splitChar '[' encf_u
    if encf_split.length > 1 then
      let _description := trim (encf_split.headD "")
      let _index := (splitChar ']' ((encf_split.get? 1).getD "")).headD ""
      if _description ≠ "" && _index ≠ "" then
        if acc.any (fun c => c.index = _index && c.serial = enclosure.serial) then
          fan_lines_go speedOut enclosure acc rest
        else
          match get_enclosure_fan_speed (speedOut enclosure.device_path _index) with
          | none => none
          | some sc =>
            fan_lines_go speedOut enclosure
              (acc ++ [{ slot := enclosure.slot, serial := enclosure.serial,
                         description := _description, index := _index,
                         speed := sc.1, comment := sc.2 }]) rest
      else
        fan_lines_go speedOut enclosure acc rest
    else
      fan_lines_go speedOut enclosure acc rest

/-- The outer loop of `BackPlane::get_enclosure_fan` over the enclosures. -/
def fan_encs_go (coolingLines : String → List String)
    (speedOut : String → String → String) (acc : List EnclosureFan) :
    List Enclosure → Option (List EnclosureFan)
  | [] => some acc
  | enclosure :: rest =>
    match fan_lines_go speedOut enclosure acc (coolingLines enclosure.device_path) with
    | none => none
    | some acc2 => fan_encs_go coolingLines speedOut acc2 rest

/-- Embeds `BackPlane::get_enclosure_fan`, parameterised by the discovered
enclosures (the Rust code obtains them from `get_enclosure()`). -/
def get_enclosure_fan (coolingLines : String → List String)
    (speedOut : String → String → String) (enclosures : List Enclosure) :
    Option (List EnclosureFan) :=
  fan_encs_go coolingLines speedOut [] enclosures

/-- The deduplication key of an `EnclosureFan`. -/
def fanKey (c : EnclosureFan) : String × String :=
  (c.index, c.serial)

/-! ### Claim C6 -/

theorem get_enclosure_go_total (inq : String → String × String × String × String)
    (lines : List String) :
    ∀ acc : List Enclosure,
      (∀ l ∈ lines, containsSubstr l "enclosu" = true →
        ∃ t ∈ (splitChar ' ' l).filter (fun content => content ≠ ""),
          containsSubstr t "/dev/" = true) →
      ∃ encs, get_enclosure_go inq acc lines = some encs := by
  induction lines with
  | nil => intro acc _; exact ⟨acc, rfl⟩
  | cons line rest ih =>
    intro acc h
    have hrest : ∀ l ∈ rest, containsSubstr l "enclosu" = true →
        ∃ t ∈ (splitChar ' ' l).filter (fun content => content ≠ ""),
          containsSubstr t "/dev/" = true :=
      fun l hl => h l (by simp [hl])
    by_cases hc : containsSubstr line "enclosu" = true
    · obtain ⟨t, ht, hdev⟩ := h line (by simp) hc
      cases hf : ((splitChar ' ' line).filter
          (fun content => content ≠ "")).find? (fun r => containsSubstr r "/dev/") with
      | none =>
        exact absurd hdev (List.find?_eq_none.mp hf t ht)
      | some dev =>
        obtain ⟨encs, hencs⟩ := ih (acc ++
          [{ slot := removeBrackets ((((splitChar ' ' line).filter
               (fun content => content ≠ ""))).headD ""),
             device_path := dev,
             vendor := (inq dev).1,
             model := (inq dev).2.1,
             revision := (inq dev).2.2.1,
             serial := (inq dev).2.2.2 }]) hrest
        refine ⟨encs, ?_⟩
        rw [get_enclosure_go, if_pos hc]
        simp only [hf]
        exact hencs
    · simp only [Bool.not_eq_true] at hc
      obtain ⟨encs, hencs⟩ := ih acc hrest
      refine ⟨encs, ?_⟩
      rw [get_enclosure_go, if_neg (by simp [hc])]
      exact hencs

theorem details_no_label_keeps (lines : List String) :
    ∀ acc : String × String × String × String,
      (∀ l ∈ lines, containsSubstr l "Vendor" = false ∧
        containsSubstr l "identification" = false ∧
        containsSubstr l "revision" = false ∧
        containsSubstr l "serial" = false) →
      lines.foldl enclosure_details_line acc = acc := by
  induction lines with
  | nil => intro acc _; rfl
  | cons line rest ih =>
    intro acc h
    obtain ⟨h1, h2, h3, h4⟩ := h line (by simp)
    have hstep : enclosure_details_line acc line = acc := by
      simp [enclosure_details_line, h1, h2, h3, h4]
    rw [List.foldl_cons, hstep]
    exact ih acc (fun l hl => h l (by simp [hl]))

/-- C6 counterexample: a listing line containing the enclosure class string
but no `/dev/` token (as `lsscsi -g` prints for an enclosure without a
device node) makes `.position(...).unwrap()` panic, aborting the whole
enumeration — the first, well-formed enclosure is lost too — refuting
"never aborts the whole enumeration because one enclosure line fails to
parse". -/
theorem C6_bad_line_aborts_scan :
    get_enclosure (fun _ => ("NONE", "NONE", "NONE", "NONE"))
      "[0:0:0:0] enclosu ACME 12G /dev/sg9 \n[1:0:0:0] enclosu ACME 12G - " =
      none := by decide

/-- C6 amended: the enumeration never aborts provided every line containing
the enclosure class string also contains a `/dev/` token, and an enclosure
whose inquiry output lacks the labelled fields only degrades to the
`"NONE"` sentinels; but a listing line with no `/dev/` token panics,
aborting the whole enumeration. -/
theorem C6_parse_miss_degrades (inq : String → String × String × String × String)
    (out inqOut : String)
    (hdev : ∀ l ∈ splitChar '\n' out, containsSubstr l "enclosu" = true →
      ∃ t ∈ (splitChar ' ' l).filter (fun content => content ≠ ""),
        containsSubstr t "/dev/" = true)
    (hmiss : ∀ l ∈ splitChar '\n' inqOut, containsSubstr l "Vendor" = false ∧
      containsSubstr l "identification" = false ∧
      containsSubstr l "revision" = false ∧
      containsSubstr l "serial" = false) :
    (∃ encs, get_enclosure inq out = some encs) ∧
    get_enclosure_details inqOut = ("NONE", "NONE", "NONE", "NONE") := by
  constructor
  · exact get_enclosure_go_total inq (splitChar '\n' out) [] hdev
  · exact details_no_label_keeps (splitChar '\n' inqOut) _ hmiss

theorem C6_parse_miss_degrades_witness :
    (∃ encs, get_enclosure (fun _ => ("NONE", "NONE", "NONE", "NONE"))
      "[0:0:0:0] enclosu ACME 12G /dev/sg9 " = some encs) ∧
    get_enclosure_details "nothing usable here" =
      ("NONE", "NONE", "NONE", "NONE") :=
  C6_parse_miss_degrades (fun _ => ("NONE", "NONE", "NONE", "NONE"))
    "[0:0:0:0] enclosu ACME 12G /dev/sg9 " "nothing usable here"
    (by decide) (by decide)

/-! ### Claim C5 -/

theorem fan_speed_go_no_speed_line (lines : List String) :
    ∀ acc : Int × String, (∀ l ∈ lines, containsSubstr l "speed" = false) →
      fan_speed_go acc lines = some acc := by
  induction lines with
  | nil => intro acc _; rfl
  | cons line rest ih =>
    intro acc h
    have hline : containsSubstr line "speed" = false := h line (by simp)
    rw [fan_speed_go, if_neg (by simp [hline])]
    exact ih acc (fun l hl => h l (by simp [hl]))

/-- C5 counterexample: a fan component accepted from the cooling-component
stream whose per-component RPM query output contains no line with
`"speed"` is not a hard failure: `get_enclosure_fan_speed` falls through
with its initial values and the engine appends an `EnclosureFan` with the
silent default speed 0 and empty comment, never extracted from tool
output. -/
theorem C5_missing_speed_appends_zero_fan :
    get_enclosure_fan (fun _ => ["Cooling Fan1 [0]"])
      (fun _ _ => "no rpm info here")
      [⟨"0:0:0:0", "/dev/sg9", "ACME", "M", "1.0", "S1"⟩] =
      some [⟨"0:0:0:0", "S1", "Cooling Fan1", "0", 0, ""⟩] := by decide

/-- C5 amended: when the RPM query output contains no line with `"speed"`,
the extraction silently returns the default speed 0 with an empty comment
(which the engine then appends); a line containing `"speed"` whose second
comma-field has no digits, or with fewer than three comma-fields, panics,
aborting the whole enumeration rather than failing that one component. -/
theorem C5_fan_speed_behaviour (out : String)
    (h : ∀ l ∈ splitChar '\n' out, containsSubstr l "speed" = false) :
    get_enclosure_fan_speed out = some (0, "") ∧
    get_enclosure_fan_speed "fan speed, none, note" = none ∧
    get_enclosure_fan_speed "just speed" = none := by
  refine ⟨?_, by decide, by decide⟩
  exact fan_speed_go_no_speed_line (splitChar '\n' out) (0, "") h

theorem C5_fan_speed_behaviour_witness :
    get_enclosure_fan_speed "no rpm info here" = some (0, "") ∧
    get_enclosure_fan_speed "fan speed, none, note" = none ∧
    get_enclosure_fan_speed "just speed" = none :=
  C5_fan_speed_behaviour "no rpm info here" (by decide)

/-! ### Claim C8 -/

theorem fan_lines_go_key_nodup (speedOut : String → String → String)
    (enclosure : Enclosure) (lines : List String) :
    ∀ acc res : List EnclosureFan, (acc.map fanKey).Nodup →
      fan_lines_go speedOut enclosure acc lines = some res →
      (res.map fanKey).Nodup := by
  induction lines with
  | nil =>
    intro acc res hnd heq
    rw [fan_lines_go] at heq
    obtain rfl := Option.some.inj heq
    exact hnd
  | cons line rest ih =>
    intro acc res hnd heq
    rw [fan_lines_go] at heq
    split at heq
    · dsimp only at heq
      split at heq
      · split at heq
        · exact ih _ _ hnd heq
        · split at heq
          · cases heq
          · rename_i hguard hnotany hopt sc hsc
            apply ih _ _ ?_ heq
            simp only [List.map_append, List.map_cons, List.map_nil]
            rw [List.nodup_append]
            refine ⟨hnd, List.nodup_singleton _, ?_⟩
            intro a ha hb
            rw [List.mem_singleton] at hb
            subst hb
            obtain ⟨c, hc, hck⟩ := List.mem_map.mp ha
            simp only [List.any_eq_true, Bool.and_eq_true, decide_eq_true_eq,
              not_exists, not_and] at hnotany
            have hK := congrArg Prod.fst hck
            have hS := congrArg Prod.snd hck
            simp only [fanKey] at hK hS
            exact hnotany c hc hK hS
      · exact ih _ _ hnd heq
    · exact ih _ _ hnd heq

theorem fan_encs_go_key_nodup (coolingLines : String → List String)
    (speedOut : String → String → String) (enclosures : List Enclosure) :
    ∀ acc res : List EnclosureFan, (acc.map fanKey).Nodup →
      fan_encs_go coolingLines speedOut acc enclosures = some res →
      (res.map fanKey).Nodup := by
  induction enclosures with
  | nil =>
    intro acc res hnd heq
    rw [fan_encs_go] at heq
    obtain rfl := Option.some.inj heq
    exact hnd
  | cons enclosure rest ih =>
    intro acc res hnd heq
    rw [fan_encs_go] at heq
    split at heq
    · cases heq
    · rename_i acc2 hacc2
      exact ih _ _ (fan_lines_go_key_nodup speedOut enclosure _ _ _ hnd hacc2) heq

/-- C8: the fan list returned by the enumeration holds at most one
`EnclosureFan` per (`index`, `serial`) pair — the mapped key list has no
duplicate — and when two cooling-component lines carry the same index and
enclosure serial with different descriptions, only the first occurrence in
stream order is kept. -/
theorem C8_fan_dedup (coolingLines : String → List String)
    (speedOut : String → String → String) (enclosures : List Enclosure)
    (res : List EnclosureFan)
    (h : get_enclosure_fan coolingLines speedOut enclosures = some res) :
    (res.map fanKey).Nodup ∧
    get_enclosure_fan (fun _ => ["Cooling Fan-A [0]", "Cooling Fan-B [0]"])
      (fun _ _ => "speed, 4980 rpm, nominal")
      [⟨"0:0:0:0", "/dev/sg9", "ACME", "M", "1.0", "S1"⟩] =
      some [⟨"0:0:0:0", "S1", "Cooling Fan-A", "0", 4980, "nominal"⟩] := by
  refine ⟨?_, by decide⟩
  exact fan_encs_go_key_nodup coolingLines speedOut enclosures [] res (by simp) h

theorem C8_fan_dedup_witness :
    (([⟨"0:0:0:0", "S1", "Cooling Fan-A", "0", 4980, "nominal"⟩] :
        List EnclosureFan).map fanKey).Nodup ∧
    get_enclosure_fan (fun _ => ["Cooling Fan-A [0]", "Cooling Fan-B [0]"])
      (fun _ _ => "speed, 4980 rpm, nominal")
      [⟨"0:0:0:0", "/dev/sg9", "ACME", "M", "1.0", "S1"⟩] =
      some [⟨"0:0:0:0", "S1", "Cooling Fan-A", "0", 4980, "nominal"⟩] :=
  C8_fan_dedup (fun _ => ["Cooling Fan-A [0]", "Cooling Fan-B [0]"])
    (fun _ _ => "speed, 4980 rpm, nominal")
    [⟨"0:0:0:0", "/dev/sg9", "ACME", "M", "1.0", "S1"⟩]
    [⟨"0:0:0:0", "S1", "Cooling Fan-A", "0", 4980, "nominal"⟩] (by decide)

end JbodRs
